import Mathlib

/-
Verification of the benchmarking harness in
notebooks/03_evaluate/comparison.ipynb (Recommenders repository).

The notebook runs a sweep over dataset sizes and algorithm identifiers,
executes one external notebook per (dataset, algorithm) pair, extracts the
recorded scalar outputs, builds one row of a result table per pair, and
finally removes a scratch directory.  The external notebooks are opaque
collaborators: they are modelled by a function from (notebook path, dataset
label) to either an execution failure or a record of named output values.
-/

namespace Comparison

/-- A scalar value carried through the harness.  The harness never computes
with these values; it only copies them from the executed notebook record into
the result row, or fills a field with the numpy not-a-number sentinel
(constructor nan).  Actual outputs are modelled with constructor num. -/
inductive PVal where
  | nan : PVal
  | num : ℚ → PVal
deriving DecidableEq, Repr

/-- One row of the result table, with the column schema of the source:
Data, Algo, K, MAP, nDCG@k, Precision@k, Recall@k, RMSE, MAE, R2,
Explained Variance, Train time, Test time. -/
structure Row where
  Data : String
  Algo : String
  K : Nat
  MAP : PVal
  nDCG : PVal
  Precision : PVal
  Recall : PVal
  RMSE : PVal
  MAE : PVal
  R2 : PVal
  ExplainedVariance : PVal
  TrainTime : PVal
  TestTime : PVal
deriving DecidableEq, Repr

/-- Source: k = 10 (global set-up cell). -/
def k : Nat := 10

/-- Source: data_sizes = ['100k', '1m']. -/
def data_sizes : List String := ["100k", "1m"]

/-- Source: algorithms = ['als', 'sar', 'svd', 'fast', 'ncf', 'rbm']. -/
def algorithms : List String := ["als", "sar", "svd", "fast", "ncf", "rbm"]

/-- Source: the notebooks dict mapping each algorithm identifier to the path
of the external notebook implementing it. -/
def notebooks : List (String × String) :=
  [("als", "../00_quick_start/als_movielens.ipynb"),
   ("sar", "../00_quick_start/sar_movielens.ipynb"),
   ("svd", "../02_model/surprise_svd_deep_dive.ipynb"),
   ("fast", "../00_quick_start/fastai_movielens.ipynb"),
   ("ncf", "../00_quick_start/ncf_movielens.ipynb"),
   ("rbm", "../00_quick_start/rbm_movielens.ipynb")]

/-- Source: the membership list ["als", "svd", "fast"] of the first dispatch
branch (rating-capable algorithms). -/
def ratingAlgos : List String := ["als", "svd", "fast"]

/-- Source: the membership list ["sar", "rbm", "ncf"] of the second dispatch
branch (ranking-only algorithms; rating metrics are assigned NaN). -/
def rankingAlgos : List String := ["sar", "rbm", "ncf"]

/-- ASCII lower-casing of one character, as Python str.lower acts on the
ASCII column names appearing here. -/
def lowerChar (c : Char) : Char :=
  if 65 ≤ c.toNat ∧ c.toNat ≤ 90 then Char.ofNat (c.toNat + 32) else c

/-- Python x.lower() on a string. -/
def lowerStr (s : String) : String := ⟨s.data.map lowerChar⟩

/-- The record of named outputs read back from one executed notebook: an
ordered association of column name to value (the pandas frame after the
transpose, rename and drop steps of the source, before lower-casing). -/
abbrev NbRecord := List (String × PVal)

/-- Source: df_eval.columns = [x.lower() for x in list(df_eval.columns)]. -/
def lowerColumns (rec : NbRecord) : NbRecord :=
  rec.map (fun p => (lowerStr p.1, p.2))

/-- The uncaught exceptions the sweep cell can raise.
keyError: the dict lookup notebooks[algorithm] fails;
execError: pm.execute_notebook raises (external notebook failure);
missingField: a column read df_eval[name] raises KeyError at
row-construction time; valueError: the final else branch raises
ValueError (unrecognized algorithm). -/
inductive SweepError where
  | keyError (alg : String)
  | execError (alg : String) (dataSize : String)
  | missingField (name : String)
  | valueError (alg : String)
deriving DecidableEq, Repr

/-- True exactly on the missingField constructor. -/
def SweepError.isMissingField : SweepError → Bool
  | .missingField _ => true
  | _ => false

/-- Source: df_eval[name].item() — reading one named column of the (already
lower-cased) record; a missing column raises KeyError. -/
def getField (rec : NbRecord) (name : String) : Except SweepError PVal :=
  match rec.lookup name with
  | some v => Except.ok v
  | none => Except.error (SweepError.missingField name)

/-- Source: the dispatch of the sweep cell.  The first branch
(algorithm in ["als", "svd", "fast"]) reads all ten metric and timing
columns, in the evaluation order of the dict literal; the second branch
(algorithm in ["sar", "rbm", "ncf"]) reads the four ranking and two timing
columns and assigns np.nan to the four rating fields; the final else branch
raises ValueError.  The record argument is the already lower-cased frame. -/
def buildRow (dataSize alg : String) (kv : Nat) (rec : NbRecord) :
    Except SweepError Row :=
  if alg ∈ ratingAlgos then
    match getField rec "map" with
    | Except.error e => Except.error e
    | Except.ok vMap =>
    match getField rec "ndcg" with
    | Except.error e => Except.error e
    | Except.ok vNdcg =>
    match getField rec "precision" with
    | Except.error e => Except.error e
    | Except.ok vPrec =>
    match getField rec "recall" with
    | Except.error e => Except.error e
    | Except.ok vRec =>
    match getField rec "rmse" with
    | Except.error e => Except.error e
    | Except.ok vRmse =>
    match getField rec "mae" with
    | Except.error e => Except.error e
    | Except.ok vMae =>
    match getField rec "rsquared" with
    | Except.error e => Except.error e
    | Except.ok vR2 =>
    match getField rec "exp_var" with
    | Except.error e => Except.error e
    | Except.ok vExp =>
    match getField rec "train_time" with
    | Except.error e => Except.error e
    | Except.ok vTrain =>
    match getField rec "test_time" with
    | Except.error e => Except.error e
    | Except.ok vTest =>
      Except.ok
        { Data := dataSize, Algo := alg, K := kv,
          MAP := vMap, nDCG := vNdcg, Precision := vPrec, Recall := vRec,
          RMSE := vRmse, MAE := vMae, R2 := vR2, ExplainedVariance := vExp,
          TrainTime := vTrain, TestTime := vTest }
  else if alg ∈ rankingAlgos then
    match getField rec "map" with
    | Except.error e => Except.error e
    | Except.ok vMap =>
    match getField rec "ndcg" with
    | Except.error e => Except.error e
    | Except.ok vNdcg =>
    match getField rec "precision" with
    | Except.error e => Except.error e
    | Except.ok vPrec =>
    match getField rec "recall" with
    | Except.error e => Except.error e
    | Except.ok vRec =>
    match getField rec "train_time" with
    | Except.error e => Except.error e
    | Except.ok vTrain =>
    match getField rec "test_time" with
    | Except.error e => Except.error e
    | Except.ok vTest =>
      Except.ok
        { Data := dataSize, Algo := alg, K := kv,
          MAP := vMap, nDCG := vNdcg, Precision := vPrec, Recall := vRec,
          RMSE := PVal.nan, MAE := PVal.nan, R2 := PVal.nan,
          ExplainedVariance := PVal.nan,
          TrainTime := vTrain, TestTime := vTest }
  else
    Except.error (SweepError.valueError alg)

/-- The opaque external collaborators: given the path of a notebook and the
dataset label parameter, execution either fails or yields the record of
named outputs of the executed notebook. -/
abbrev Exec := String → String → Except Unit NbRecord

/-- One iteration of the sweep cell for one (dataset, algorithm) pair:
look up notebooks[algorithm] (KeyError if absent), execute the external
notebook, read the record back, lower-case the column names, and dispatch
into row construction. -/
def runOne (exec : Exec) (dataSize alg : String) : Except SweepError Row :=
  match notebooks.lookup alg with
  | none => Except.error (SweepError.keyError alg)
  | some path =>
    match exec path dataSize with
    | Except.error _ => Except.error (SweepError.execError alg dataSize)
    | Except.ok rec => buildRow dataSize alg k (lowerColumns rec)

/-- The sweep over a list of (dataset, algorithm) pairs, carrying the rows
appended so far (the mutable df_results of the source).  Each successful
iteration appends its row; the first uncaught exception stops the sweep,
leaving the rows appended before it. -/
def sweepFrom (exec : Exec) : List (String × String) → List Row →
    List Row × Option SweepError
  | [], acc => (acc, none)
  | (ds, alg) :: rest, acc =>
    match runOne exec ds alg with
    | Except.ok r => sweepFrom exec rest (acc ++ [r])
    | Except.error e => (acc, some e)

/-- The cross product enumerated by the two nested loops of the source:
outer loop over dataset labels, inner loop over algorithm identifiers. -/
def crossPairs (dss algs : List String) : List (String × String) :=
  dss.flatMap (fun ds => algs.map (fun alg => (ds, alg)))

/-- The whole sweep cell: iterate the nested loops starting from the empty
df_results. -/
def sweep (exec : Exec) (dss algs : List String) :
    List Row × Option SweepError :=
  sweepFrom exec (crossPairs dss algs) []

/-- The errno code ENOENT (no such file or directory). -/
def ENOENT : Nat := 2

/-- The names bound by the import cell of the notebook: the modules sys,
os, shutil, tempfile and pyspark under their own names, pandas as pd,
matplotlib.pyplot as plt, numpy as np, seaborn as sns, and papermill as pm.
The name errno is not among them. -/
def importedNames : List String :=
  ["sys", "os", "shutil", "tempfile", "pd", "plt", "np", "sns", "pm",
   "pyspark"]

/-- The uncaught exceptions the cleanup cell can raise.
removalError: the re-raised OSError of shutil.rmtree;
nameError: the NameError raised when the except handler evaluates the
unbound name errno. -/
inductive CleanupError where
  | removalError (code : Nat)
  | nameError
deriving DecidableEq, Repr

/-- The cleanup cell: shutil.rmtree(temp_path) inside try, with an except
OSError handler that re-raises unless exc.errno equals errno.ENOENT.  The
argument is the outcome of rmtree: none for success, some code for an
OSError carrying that errno code.  Evaluating the guard first resolves the
bare name errno; the import cell never binds it, so in the handler the
lookup raises NameError before the comparison happens. -/
def cleanup (rmtreeOutcome : Option Nat) : Option CleanupError :=
  match rmtreeOutcome with
  | none => none
  | some code =>
    if "errno" ∈ importedNames then
      if code ≠ ENOENT then some (CleanupError.removalError code) else none
    else
      some CleanupError.nameError

/-- The observable state after running the notebook top to bottom:
whether the scratch directory still exists, the rows of df_results, and
whether an uncaught exception halted execution. -/
structure NotebookOutcome where
  tempDirExists : Bool
  rows : List Row
  halted : Bool
deriving DecidableEq, Repr

/-- Run-all semantics of the notebook: tempfile.mkdtemp creates the scratch
directory, then the sweep cell runs; an uncaught exception in the sweep cell
halts execution, so the cleanup cell never runs and the directory persists.
Otherwise the cleanup cell removes the (existing) directory. -/
def runNotebook (exec : Exec) : NotebookOutcome :=
  match sweep exec data_sizes algorithms with
  | (rows, some _) => { tempDirExists := true, rows := rows, halted := true }
  | (rows, none) =>
    match cleanup none with
    | none => { tempDirExists := false, rows := rows, halted := false }
    | some _ => { tempDirExists := false, rows := rows, halted := true }

/-- A record carrying every expected output column, used to exercise the
harness on a fully successful run. -/
def goodRec : NbRecord :=
  [("map", PVal.num 1), ("ndcg", PVal.num 2), ("precision", PVal.num 3),
   ("recall", PVal.num 4), ("rmse", PVal.num 5), ("mae", PVal.num 6),
   ("rsquared", PVal.num 7), ("exp_var", PVal.num 8),
   ("train_time", PVal.num 9), ("test_time", PVal.num 10)]

/-- An external world in which every notebook execution succeeds and
records goodRec. -/
def goodExec : Exec := fun _ _ => Except.ok goodRec

/-- An external world in which every notebook execution fails. -/
def failExec : Exec := fun _ _ => Except.error ()

end Comparison

namespace Comparison

theorem getField_ok_iff (rec : NbRecord) (f : String) (v : PVal) :
    getField rec f = Except.ok v ↔ rec.lookup f = some v := by
  unfold getField
  cases h : rec.lookup f <;> simp

theorem getField_error_iff (rec : NbRecord) (f : String) (e : SweepError) :
    getField rec f = Except.error e ↔
      (rec.lookup f = none ∧ e = SweepError.missingField f) := by
  unfold getField
  cases h : rec.lookup f <;> simp [eq_comm]

theorem ranking_not_rating (alg : String) (h : alg ∈ rankingAlgos) :
    alg ∉ ratingAlgos := by
  simp only [rankingAlgos, List.mem_cons, List.not_mem_nil, or_false] at h
  rcases h with h | h | h <;> subst h <;> decide

theorem buildRow_rating_ok (ds alg : String) (kv : Nat) (rec : NbRecord)
    (hmem : alg ∈ ratingAlgos) (r : Row)
    (h : buildRow ds alg kv rec = Except.ok r) :
    r.Data = ds ∧ r.Algo = alg ∧ r.K = kv ∧
    getField rec "map" = Except.ok r.MAP ∧
    getField rec "ndcg" = Except.ok r.nDCG ∧
    getField rec "precision" = Except.ok r.Precision ∧
    getField rec "recall" = Except.ok r.Recall ∧
    getField rec "rmse" = Except.ok r.RMSE ∧
    getField rec "mae" = Except.ok r.MAE ∧
    getField rec "rsquared" = Except.ok r.R2 ∧
    getField rec "exp_var" = Except.ok r.ExplainedVariance ∧
    getField rec "train_time" = Except.ok r.TrainTime ∧
    getField rec "test_time" = Except.ok r.TestTime := by
  unfold buildRow at h
  rw [if_pos hmem] at h
  repeat' split at h
  all_goals simp_all
  subst h
  simp_all

theorem buildRow_ranking_ok (ds alg : String) (kv : Nat) (rec : NbRecord)
    (hmem : alg ∈ rankingAlgos) (r : Row)
    (h : buildRow ds alg kv rec = Except.ok r) :
    r.Data = ds ∧ r.Algo = alg ∧ r.K = kv ∧
    getField rec "map" = Except.ok r.MAP ∧
    getField rec "ndcg" = Except.ok r.nDCG ∧
    getField rec "precision" = Except.ok r.Precision ∧
    getField rec "recall" = Except.ok r.Recall ∧
    r.RMSE = PVal.nan ∧ r.MAE = PVal.nan ∧ r.R2 = PVal.nan ∧
    r.ExplainedVariance = PVal.nan ∧
    getField rec "train_time" = Except.ok r.TrainTime ∧
    getField rec "test_time" = Except.ok r.TestTime := by
  unfold buildRow at h
  rw [if_neg (ranking_not_rating alg hmem), if_pos hmem] at h
  repeat' split at h
  all_goals simp_all
  subst h
  simp_all

end Comparison

namespace Comparison

theorem buildRow_error_shape (ds alg : String) (kv : Nat) (rec : NbRecord)
    (hmem : alg ∈ ratingAlgos ∨ alg ∈ rankingAlgos) (e : SweepError)
    (h : buildRow ds alg kv rec = Except.error e) :
    e.isMissingField = true := by
  unfold buildRow at h
  rcases hmem with hmem | hmem
  · rw [if_pos hmem] at h
    repeat' split at h
    all_goals simp_all [getField_error_iff, SweepError.isMissingField]
    all_goals subst h
    all_goals rfl
  · rw [if_neg (ranking_not_rating alg hmem), if_pos hmem] at h
    repeat' split at h
    all_goals simp_all [getField_error_iff, SweepError.isMissingField]
    all_goals subst h
    all_goals rfl

theorem runOne_ok_data_algo (exec : Exec) (ds alg : String) (r : Row)
    (h : runOne exec ds alg = Except.ok r) :
    r.Data = ds ∧ r.Algo = alg ∧ r.K = k := by
  unfold runOne at h
  split at h
  · exact absurd h (by simp)
  · split at h
    · exact absurd h (by simp)
    · by_cases h1 : alg ∈ ratingAlgos
      · obtain ⟨hd, ha, hk, _⟩ := buildRow_rating_ok _ _ _ _ h1 _ h
        exact ⟨hd, ha, hk⟩
      · by_cases h2 : alg ∈ rankingAlgos
        · obtain ⟨hd, ha, hk, _⟩ := buildRow_ranking_ok _ _ _ _ h2 _ h
          exact ⟨hd, ha, hk⟩
        · unfold buildRow at h
          rw [if_neg h1, if_neg h2] at h
          exact absurd h (by simp)

theorem sweepFrom_none_forall2 (exec : Exec) :
    ∀ (pairs : List (String × String)) (acc rows : List Row),
      sweepFrom exec pairs acc = (rows, none) →
      ∃ newRows, rows = acc ++ newRows ∧
        List.Forall₂
          (fun (p : String × String) (r : Row) =>
            runOne exec p.1 p.2 = Except.ok r)
          pairs newRows := by
  intro pairs
  induction pairs with
  | nil =>
    intro acc rows h
    simp only [sweepFrom] at h
    have h1 : acc = rows := congrArg Prod.fst h
    exact ⟨[], by simp [← h1], List.Forall₂.nil⟩
  | cons p rest ih =>
    intro acc rows h
    obtain ⟨ds, alg⟩ := p
    simp only [sweepFrom] at h
    split at h
    · rename_i r hr
      obtain ⟨newRows, hrows, hforall⟩ := ih (acc ++ [r]) rows h
      exact ⟨r :: newRows, by simp [hrows], List.Forall₂.cons hr hforall⟩
    · exact absurd h (by simp)

theorem crossPairs_length (dss algs : List String) :
    (crossPairs dss algs).length = dss.length * algs.length := by
  induction dss with
  | nil => simp [crossPairs]
  | cons d ds ih =>
    simp only [crossPairs, List.flatMap_cons, List.length_append,
      List.length_map, List.length_cons] at *
    rw [ih]
    ring

end Comparison

namespace Comparison

/-- The row the harness builds for pair ("100k", "sar") in the goodExec
world. -/
def sarRow : Row :=
  { Data := "100k", Algo := "sar", K := 10,
    MAP := PVal.num 1, nDCG := PVal.num 2, Precision := PVal.num 3,
    Recall := PVal.num 4, RMSE := PVal.nan, MAE := PVal.nan, R2 := PVal.nan,
    ExplainedVariance := PVal.nan, TrainTime := PVal.num 9,
    TestTime := PVal.num 10 }

/-- The row the harness builds for pair ("100k", "als") in the goodExec
world. -/
def alsRow : Row :=
  { Data := "100k", Algo := "als", K := 10,
    MAP := PVal.num 1, nDCG := PVal.num 2, Precision := PVal.num 3,
    Recall := PVal.num 4, RMSE := PVal.num 5, MAE := PVal.num 6,
    R2 := PVal.num 7, ExplainedVariance := PVal.num 8,
    TrainTime := PVal.num 9, TestTime := PVal.num 10 }

/-- C1: for every configured dataset label and every algorithm identifier in
the list ["sar", "rbm", "ncf"], the row built for that pair carries the NaN
sentinel in the four rating-metric fields, Data equal to the dataset label,
Algo equal to the algorithm identifier, K equal to the fixed top-K value 10,
and the four ranking metrics and two timing fields read from the outputs of
the executed notebook. -/
theorem ranking_row_nan_fields (exec : Exec) (ds alg path : String)
    (rec : NbRecord) (r : Row)
    (_hds : ds ∈ data_sizes) (halg : alg ∈ rankingAlgos)
    (hpath : notebooks.lookup alg = some path)
    (hexec : exec path ds = Except.ok rec)
    (h : runOne exec ds alg = Except.ok r) :
    r.Data = ds ∧ r.Algo = alg ∧ r.K = 10 ∧
    r.RMSE = PVal.nan ∧ r.MAE = PVal.nan ∧ r.R2 = PVal.nan ∧
    r.ExplainedVariance = PVal.nan ∧
    getField (lowerColumns rec) "map" = Except.ok r.MAP ∧
    getField (lowerColumns rec) "ndcg" = Except.ok r.nDCG ∧
    getField (lowerColumns rec) "precision" = Except.ok r.Precision ∧
    getField (lowerColumns rec) "recall" = Except.ok r.Recall ∧
    getField (lowerColumns rec) "train_time" = Except.ok r.TrainTime ∧
    getField (lowerColumns rec) "test_time" = Except.ok r.TestTime := by
  unfold runOne at h
  simp only [hpath, hexec] at h
  obtain ⟨hd, ha, hk, h4, h5, h6, h7, h8, h9, h10, h11, h12, h13⟩ :=
    buildRow_ranking_ok _ _ _ _ halg _ h
  exact ⟨hd, ha, hk, h8, h9, h10, h11, h4, h5, h6, h7, h12, h13⟩

/-- C1 witness: the pair ("100k", "sar") in the goodExec world. -/
theorem ranking_row_nan_fields_witness :
    sarRow.Data = "100k" ∧ sarRow.Algo = "sar" ∧ sarRow.K = 10 ∧
    sarRow.RMSE = PVal.nan ∧ sarRow.MAE = PVal.nan ∧ sarRow.R2 = PVal.nan ∧
    sarRow.ExplainedVariance = PVal.nan ∧
    getField (lowerColumns goodRec) "map" = Except.ok sarRow.MAP ∧
    getField (lowerColumns goodRec) "ndcg" = Except.ok sarRow.nDCG ∧
    getField (lowerColumns goodRec) "precision" =
      Except.ok sarRow.Precision ∧
    getField (lowerColumns goodRec) "recall" = Except.ok sarRow.Recall ∧
    getField (lowerColumns goodRec) "train_time" =
      Except.ok sarRow.TrainTime ∧
    getField (lowerColumns goodRec) "test_time" =
      Except.ok sarRow.TestTime :=
  ranking_row_nan_fields goodExec "100k" "sar"
    "../00_quick_start/sar_movielens.ipynb" goodRec sarRow
    (by decide) (by decide) (by decide) (by rfl) (by rfl)

/-- C5: for every configured dataset label and every algorithm identifier in
the list ["als", "svd", "fast"], the row built for that pair has every
metric and timing field read from the outputs of the executed notebook; the
harness forces none of them to the NaN sentinel. -/
theorem rating_row_all_fields (exec : Exec) (ds alg path : String)
    (rec : NbRecord) (r : Row)
    (_hds : ds ∈ data_sizes) (halg : alg ∈ ratingAlgos)
    (hpath : notebooks.lookup alg = some path)
    (hexec : exec path ds = Except.ok rec)
    (h : runOne exec ds alg = Except.ok r) :
    r.Data = ds ∧ r.Algo = alg ∧ r.K = 10 ∧
    getField (lowerColumns rec) "map" = Except.ok r.MAP ∧
    getField (lowerColumns rec) "ndcg" = Except.ok r.nDCG ∧
    getField (lowerColumns rec) "precision" = Except.ok r.Precision ∧
    getField (lowerColumns rec) "recall" = Except.ok r.Recall ∧
    getField (lowerColumns rec) "rmse" = Except.ok r.RMSE ∧
    getField (lowerColumns rec) "mae" = Except.ok r.MAE ∧
    getField (lowerColumns rec) "rsquared" = Except.ok r.R2 ∧
    getField (lowerColumns rec) "exp_var" =
      Except.ok r.ExplainedVariance ∧
    getField (lowerColumns rec) "train_time" = Except.ok r.TrainTime ∧
    getField (lowerColumns rec) "test_time" = Except.ok r.TestTime := by
  unfold runOne at h
  simp only [hpath, hexec] at h
  exact buildRow_rating_ok _ _ _ _ halg _ h

/-- C5 witness: the pair ("100k", "als") in the goodExec world. -/
theorem rating_row_all_fields_witness :
    alsRow.Data = "100k" ∧ alsRow.Algo = "als" ∧ alsRow.K = 10 ∧
    getField (lowerColumns goodRec) "map" = Except.ok alsRow.MAP ∧
    getField (lowerColumns goodRec) "ndcg" = Except.ok alsRow.nDCG ∧
    getField (lowerColumns goodRec) "precision" =
      Except.ok alsRow.Precision ∧
    getField (lowerColumns goodRec) "recall" = Except.ok alsRow.Recall ∧
    getField (lowerColumns goodRec) "rmse" = Except.ok alsRow.RMSE ∧
    getField (lowerColumns goodRec) "mae" = Except.ok alsRow.MAE ∧
    getField (lowerColumns goodRec) "rsquared" = Except.ok alsRow.R2 ∧
    getField (lowerColumns goodRec) "exp_var" =
      Except.ok alsRow.ExplainedVariance ∧
    getField (lowerColumns goodRec) "train_time" =
      Except.ok alsRow.TrainTime ∧
    getField (lowerColumns goodRec) "test_time" =
      Except.ok alsRow.TestTime :=
  rating_row_all_fields goodExec "100k" "als"
    "../00_quick_start/als_movielens.ipynb" goodRec alsRow
    (by decide) (by decide) (by decide) (by rfl) (by rfl)

/-- C2: the claim says a missing scratch directory is tolerated at cleanup
time.  On the code, when shutil.rmtree raises OSError with errno ENOENT,
the except handler evaluates the bare name errno, which the import cell of
the notebook never binds, so the handler raises NameError instead of
completing cleanly.  The handler structure shows the claim is the intent
and the missing import is the slip. -/
theorem cleanup_missing_dir_raises_name_error :
    cleanup (some ENOENT) = some CleanupError.nameError ∧
    "errno" ∉ importedNames := by
  decide

end Comparison

namespace Comparison

/-- C3 counterexample: in a world where every external notebook invocation
fails, the sweep aborts with an error and the scratch directory still exists
after the notebook run, against the claim that the directory is gone whether
every run succeeded or some invocation raised. -/
theorem scratch_dir_persists_on_failure :
    (sweep failExec data_sizes algorithms).2.isSome = true ∧
    (runNotebook failExec).tempDirExists = true := by
  decide

/-- C3 (amended): when every run of the sweep succeeds, the scratch
directory no longer exists after the notebook run; when the sweep aborts,
the cleanup cell never executes and the directory persists. -/
theorem scratch_dir_removed_on_success (exec : Exec)
    (h : (sweep exec data_sizes algorithms).2 = none) :
    (runNotebook exec).tempDirExists = false := by
  unfold runNotebook
  cases hs : sweep exec data_sizes algorithms with
  | mk rows err =>
    cases err with
    | none => rfl
    | some e => rw [hs] at h; simp at h

/-- C3 witness: the fully successful goodExec world. -/
theorem scratch_dir_removed_on_success_witness :
    (runNotebook goodExec).tempDirExists = false :=
  scratch_dir_removed_on_success goodExec (by decide)

/-- C4: an algorithm identifier belonging to neither membership list of the
dispatch is unrecognized; when the sweep reaches it the iteration raises an
uncaught exception, no row for it is appended, and the sweep stops with
df_results unchanged. -/
theorem unrecognized_algorithm_aborts (exec : Exec) (ds alg : String)
    (rest : List (String × String)) (acc : List Row)
    (h1 : alg ∉ ratingAlgos) (h2 : alg ∉ rankingAlgos) :
    (sweepFrom exec ((ds, alg) :: rest) acc).1 = acc ∧
    ((sweepFrom exec ((ds, alg) :: rest) acc).2).isSome = true := by
  have hrun : ∃ e, runOne exec ds alg = Except.error e := by
    cases hl : notebooks.lookup alg with
    | none =>
      exact ⟨SweepError.keyError alg, by unfold runOne; simp only [hl]⟩
    | some path =>
      cases he : exec path ds with
      | error u =>
        exact ⟨SweepError.execError alg ds,
          by unfold runOne; simp only [hl, he]⟩
      | ok rec =>
        refine ⟨SweepError.valueError alg, ?_⟩
        unfold runOne
        simp only [hl, he]
        unfold buildRow
        rw [if_neg h1, if_neg h2]
  obtain ⟨e, he⟩ := hrun
  simp [sweepFrom, he]

/-- C4 witness: the identifier "bpr" is in neither membership list. -/
theorem unrecognized_algorithm_aborts_witness :
    (sweepFrom goodExec [("100k", "bpr")] []).1 = [] ∧
    ((sweepFrom goodExec [("100k", "bpr")] []).2).isSome = true :=
  unrecognized_algorithm_aborts goodExec "100k" "bpr" [] []
    (by decide) (by decide)

/-- C6: when every run succeeds, the result table has exactly one row per
element of the cross product of dataset labels and algorithm identifiers. -/
theorem sweep_row_count (exec : Exec) (dss algs : List String)
    (rows : List Row) (h : sweep exec dss algs = (rows, none)) :
    rows.length = dss.length * algs.length := by
  unfold sweep at h
  obtain ⟨newRows, hrows, hforall⟩ :=
    sweepFrom_none_forall2 exec (crossPairs dss algs) [] rows h
  have hlen := List.Forall₂.length_eq hforall
  simp only [hrows, List.nil_append]
  rw [← hlen, crossPairs_length]

/-- C6 witness: with the configured lists, 2 datasets and 6 algorithms give
12 rows. -/
theorem sweep_row_count_witness :
    (sweep goodExec data_sizes algorithms).1.length =
      data_sizes.length * algorithms.length ∧
    (sweep goodExec data_sizes algorithms).1.length = 12 :=
  ⟨sweep_row_count goodExec data_sizes algorithms
      (sweep goodExec data_sizes algorithms).1 (by decide),
   by decide⟩

/-- C7: rows appear exactly in sweep order; for a fully successful sweep the
i-th row of the table corresponds to the i-th (dataset, algorithm) pair of
the cross-product enumeration, outer loop over dataset labels and inner loop
over algorithm identifiers. -/
theorem sweep_row_order (exec : Exec) (dss algs : List String)
    (rows : List Row) (h : sweep exec dss algs = (rows, none)) :
    List.Forall₂
      (fun (p : String × String) (r : Row) => r.Data = p.1 ∧ r.Algo = p.2)
      (crossPairs dss algs) rows := by
  unfold sweep at h
  obtain ⟨newRows, hrows, hforall⟩ :=
    sweepFrom_none_forall2 exec (crossPairs dss algs) [] rows h
  simp only [List.nil_append] at hrows
  subst hrows
  refine List.Forall₂.imp ?_ hforall
  intro p r hp
  obtain ⟨hd, ha, _⟩ := runOne_ok_data_algo exec p.1 p.2 r hp
  exact ⟨hd, ha⟩

/-- C7 witness: the fully successful goodExec world on the configured
lists. -/
theorem sweep_row_order_witness :
    List.Forall₂
      (fun (p : String × String) (r : Row) => r.Data = p.1 ∧ r.Algo = p.2)
      (crossPairs data_sizes algorithms)
      (sweep goodExec data_sizes algorithms).1 :=
  sweep_row_order goodExec data_sizes algorithms
    (sweep goodExec data_sizes algorithms).1 (by decide)

end Comparison

namespace Comparison

/-- The column names the first dispatch branch reads, in the evaluation
order of its dict literal. -/
def ratingReadOrder : List String :=
  ["map", "ndcg", "precision", "recall", "rmse", "mae", "rsquared",
   "exp_var", "train_time", "test_time"]

/-- The column names the second dispatch branch reads, in the evaluation
order of its dict literal. -/
def rankingReadOrder : List String :=
  ["map", "ndcg", "precision", "recall", "train_time", "test_time"]

/-- The column names row construction reads for a given algorithm family. -/
def readOrder (alg : String) : List String :=
  if alg ∈ ratingAlgos then ratingReadOrder else rankingReadOrder

/-- True when the run outcome is the uncaught KeyError of a column read at
row-construction time. -/
def failsMissingField : Except SweepError Row → Bool
  | Except.error e => e.isMissingField
  | _ => false

theorem buildRow_ok_fields_present (ds alg : String) (kv : Nat)
    (rec : NbRecord) (hmem : alg ∈ ratingAlgos ∨ alg ∈ rankingAlgos)
    (r : Row) (h : buildRow ds alg kv rec = Except.ok r) :
    ∀ f ∈ readOrder alg, (rec.lookup f).isSome = true := by
  rcases hmem with hm | hm
  · obtain ⟨-, -, -, h4, h5, h6, h7, h8, h9, h10, h11, h12, h13⟩ :=
      buildRow_rating_ok _ _ _ _ hm _ h
    rw [getField_ok_iff] at h4 h5 h6 h7 h8 h9 h10 h11 h12 h13
    intro f hf
    simp only [readOrder, if_pos hm, ratingReadOrder, List.mem_cons,
      List.not_mem_nil, or_false] at hf
    rcases hf with rfl|rfl|rfl|rfl|rfl|rfl|rfl|rfl|rfl|rfl <;> simp_all
  · have hnot := ranking_not_rating alg hm
    obtain ⟨-, -, -, h4, h5, h6, h7, -, -, -, -, h12, h13⟩ :=
      buildRow_ranking_ok _ _ _ _ hm _ h
    rw [getField_ok_iff] at h4 h5 h6 h7 h12 h13
    intro f hf
    simp only [readOrder, if_neg hnot, rankingReadOrder, List.mem_cons,
      List.not_mem_nil, or_false] at hf
    rcases hf with rfl|rfl|rfl|rfl|rfl|rfl <;> simp_all

/-- C8: when the lower-cased record read back from a run lacks one of the
column names the dispatch branch reads, the iteration raises the uncaught
KeyError of the column read at row-construction time, no row for that run
is appended, and the sweep stops there with df_results unchanged. -/
theorem missing_field_aborts (exec : Exec) (ds alg path f : String)
    (rec : NbRecord) (rest : List (String × String)) (acc : List Row)
    (hmem : alg ∈ ratingAlgos ∨ alg ∈ rankingAlgos)
    (hpath : notebooks.lookup alg = some path)
    (hexec : exec path ds = Except.ok rec)
    (hf : f ∈ readOrder alg)
    (hmiss : (lowerColumns rec).lookup f = none) :
    failsMissingField (runOne exec ds alg) = true ∧
    (sweepFrom exec ((ds, alg) :: rest) acc).1 = acc ∧
    ((sweepFrom exec ((ds, alg) :: rest) acc).2).isSome = true := by
  have hrun : failsMissingField (runOne exec ds alg) = true := by
    have hred : runOne exec ds alg = buildRow ds alg k (lowerColumns rec) := by
      unfold runOne
      simp only [hpath, hexec]
    rw [hred]
    cases hb : buildRow ds alg k (lowerColumns rec) with
    | ok r =>
      have hpresent :=
        buildRow_ok_fields_present ds alg k (lowerColumns rec) hmem r hb f hf
      rw [hmiss] at hpresent
      simp at hpresent
    | error e =>
      have hshape := buildRow_error_shape ds alg k (lowerColumns rec) hmem e hb
      simp [failsMissingField, hshape]
  refine ⟨hrun, ?_⟩
  cases hro : runOne exec ds alg with
  | ok r =>
    rw [hro] at hrun
    simp [failsMissingField] at hrun
  | error e =>
    constructor <;> simp [sweepFrom, hro]

/-- A record lacking the column "map". -/
def badRec : NbRecord := [("ndcg", PVal.num 2)]

/-- An external world recording badRec on every execution. -/
def badExec : Exec := fun _ _ => Except.ok badRec

/-- C8 witness: running "als" against a record lacking the "map" column. -/
theorem missing_field_aborts_witness :
    failsMissingField (runOne badExec "100k" "als") = true ∧
    (sweepFrom badExec [("100k", "als")] []).1 = [] ∧
    ((sweepFrom badExec [("100k", "als")] []).2).isSome = true :=
  missing_field_aborts badExec "100k" "als"
    "../00_quick_start/als_movielens.ipynb" "map" badRec [] []
    (Or.inl (by decide)) (by decide) (by rfl) (by decide) (by decide)

/-- Two records whose column names agree after lower-casing and whose values
agree pointwise: they differ at most in the letter case of their names. -/
def CaseVariant (rec rec2 : NbRecord) : Prop :=
  List.Forall₂
    (fun (p q : String × PVal) => lowerStr p.1 = lowerStr q.1 ∧ p.2 = q.2)
    rec rec2

/-- C9: reading a named output field is case-insensitive: on two records
differing only in the letter case of their column names, the lower-cased
frames coincide, every column read retrieves the same value, and row
construction builds the same result. -/
theorem field_read_case_insensitive (rec rec2 : NbRecord)
    (name ds alg : String) (kv : Nat) (h : CaseVariant rec rec2) :
    lowerColumns rec = lowerColumns rec2 ∧
    getField (lowerColumns rec) name = getField (lowerColumns rec2) name ∧
    buildRow ds alg kv (lowerColumns rec) =
      buildRow ds alg kv (lowerColumns rec2) := by
  have hcol : lowerColumns rec = lowerColumns rec2 := by
    induction h with
    | nil => rfl
    | cons hpq _ ih =>
      simp only [lowerColumns, List.map_cons] at ih ⊢
      rw [hpq.1, hpq.2, ih]
  exact ⟨hcol, by rw [hcol], by rw [hcol]⟩

/-- C9 witness: a record with upper-case column names against its
lower-case counterpart. -/
theorem field_read_case_insensitive_witness :
    lowerColumns [("MAP", PVal.num 1)] = lowerColumns [("map", PVal.num 1)] ∧
    getField (lowerColumns [("MAP", PVal.num 1)]) "map" =
      getField (lowerColumns [("map", PVal.num 1)]) "map" ∧
    buildRow "100k" "sar" 10 (lowerColumns [("MAP", PVal.num 1)]) =
      buildRow "100k" "sar" 10 (lowerColumns [("map", PVal.num 1)]) :=
  field_read_case_insensitive [("MAP", PVal.num 1)] [("map", PVal.num 1)]
    "map" "100k" "sar" 10
    (List.Forall₂.cons ⟨by decide, rfl⟩ List.Forall₂.nil)

/-- C10: every identifier in the configured algorithms list belongs to one
of the two family membership lists; an identifier absent from the notebooks
mapping makes its iteration fail at the mapping lookup, before the family
dispatch is reached; and no configured identifier can reach the final
ValueError branch. -/
theorem value_error_branch_unreachable (exec : Exec)
    (ds alg alg2 v : String)
    (hmem : alg ∈ algorithms) (hlook : notebooks.lookup alg2 = none) :
    (alg ∈ ratingAlgos ∨ alg ∈ rankingAlgos) ∧
    runOne exec ds alg2 = Except.error (SweepError.keyError alg2) ∧
    runOne exec ds alg ≠ Except.error (SweepError.valueError v) := by
  have hfam : alg ∈ ratingAlgos ∨ alg ∈ rankingAlgos := by
    simp only [algorithms, List.mem_cons, List.not_mem_nil, or_false] at hmem
    rcases hmem with rfl|rfl|rfl|rfl|rfl|rfl <;> decide
  refine ⟨hfam, by unfold runOne; simp only [hlook], ?_⟩
  intro hcontra
  unfold runOne at hcontra
  cases hl : notebooks.lookup alg with
  | none =>
    simp only [hl] at hcontra
    exact absurd hcontra (by simp)
  | some path =>
    simp only [hl] at hcontra
    cases he : exec path ds with
    | error u =>
      simp only [he] at hcontra
      exact absurd hcontra (by simp)
    | ok rec =>
      simp only [he] at hcontra
      have hshape :=
        buildRow_error_shape ds alg k (lowerColumns rec) hfam _ hcontra
      simp [SweepError.isMissingField] at hshape

/-- C10 witness: "als" is configured and rating-capable; "bpr" is absent
from the mapping and fails at the lookup. -/
theorem value_error_branch_unreachable_witness :
    ("als" ∈ ratingAlgos ∨ "als" ∈ rankingAlgos) ∧
    runOne goodExec "100k" "bpr" =
      Except.error (SweepError.keyError "bpr") ∧
    runOne goodExec "100k" "als" ≠
      Except.error (SweepError.valueError "als") :=
  value_error_branch_unreachable goodExec "100k" "als" "bpr" "als"
    (by decide) (by decide)

end Comparison
